import Mathlib

/-!
Shallow embedding of the MemoryForge memory engine (the `memoryforge` Python
package): the relational store (`storage/sqlite_db.py`), the derived vector
index (`storage/qdrant_store.py`), the memory manager
(`core/memory_manager.py`), the consolidator (`core/memory_consolidator.py`),
the retrieval engine (`core/retrieval.py`), the graph builder
(`core/graph_builder.py`), the sync engine (`sync/manager.py`,
`sync/encryption.py`) and the migrator (`migrate.py`).

Conventions of the embedding:
* identifiers (UUIDs) are `Nat`; timestamps (`datetime.utcnow()`) are `Nat`
  ticks handed to each operation as a `now` argument, or drawn from a clock
  threaded through the engine state;
* SQL tables are lists of row structures; `INSERT` appends, `UPDATE ... WHERE
  id = ?` maps over the list, `DELETE ... WHERE id = ?` filters;
* floats are modelled as rationals (`ℚ`);
* a raised Python exception is `Except.error` / `Option.none`; external
  backends (embedding provider, vector search) are an explicit environment
  whose calls can fail.
-/

namespace MemoryForge

/-- Memory types, from `models.MemoryType`. -/
inductive MemoryType where
  | stack
  | decision
  | constraint
  | convention
  | note
deriving DecidableEq, Repr

/-- Memory sources, from `models.MemorySource`. -/
inductive MemorySource where
  | chat
  | manual
  | file_reference
  | git
deriving DecidableEq, Repr

/-- Graph relation types, from `models.RelationType`. -/
inductive RelationType where
  | caused_by
  | supersedes
  | relates_to
  | blocks
  | depends_on
deriving DecidableEq, Repr

/-- A memory record, from `models.Memory` / the `memories` table of
`storage/sqlite_db.py` (v2 columns included; the v3 `confidence_score`
field lives on the Pydantic model with default 1.0). The free-form
`metadata` mapping is omitted: no claim touches it. -/
structure Memory where
  id : Nat
  project_id : Nat
  content : String
  type : MemoryType
  source : MemorySource
  created_at : Nat
  updated_at : Option Nat
  confirmed : Bool
  is_stale : Bool
  stale_reason : Option String
  last_accessed : Option Nat
  is_archived : Bool
  consolidated_into : Option Nat
  confidence_score : ℚ
deriving DecidableEq, Repr

/-- A row of the `embeddings` table (memory id → Qdrant vector id). -/
structure EmbeddingRow where
  memory_id : Nat
  vector_id : String
deriving DecidableEq, Repr

/-- A row of the `memory_versions` table. -/
structure VersionRow where
  id : Nat
  memory_id : Nat
  content : String
  version : Nat
  created_at : Nat
deriving DecidableEq, Repr

/-- Git link types, from `models.LinkType`. -/
inductive LinkType where
  | created_from
  | mentioned_in
  | related_to
deriving DecidableEq, Repr

/-- A row of the `memory_links` table. -/
structure LinkRow where
  id : Nat
  memory_id : Nat
  commit_sha : String
  link_type : LinkType
  created_at : Nat
deriving DecidableEq, Repr

/-- A row of the `memory_relations` table, from `models.MemoryRelation`. -/
structure RelationRow where
  id : Nat
  source_memory_id : Nat
  target_memory_id : Nat
  relation_type : RelationType
  created_at : Nat
  created_by : String
deriving DecidableEq, Repr

/-- The relational store state: the tables of `storage/sqlite_db.py` that the
claims touch. The schema declares `ON DELETE CASCADE` foreign keys on
`memory_versions` and `memory_links`, but `_get_connection` opens every
`sqlite3` connection without `PRAGMA foreign_keys = ON`, so SQLite never
enforces them: a `DELETE` statement touches only its own table. -/
structure SQLiteDatabase where
  memories : List Memory
  embeddings : List EmbeddingRow
  memory_versions : List VersionRow
  memory_links : List LinkRow
  memory_relations : List RelationRow
deriving DecidableEq, Repr

namespace SQLiteDatabase

/-- `create_memory`: `INSERT INTO memories ... VALUES (...)`. -/
def create_memory (db : SQLiteDatabase) (m : Memory) : SQLiteDatabase :=
  { db with memories := db.memories ++ [m] }

/-- `save_memory`: alias for `create_memory`, used by sync. -/
def save_memory (db : SQLiteDatabase) (m : Memory) : SQLiteDatabase :=
  db.create_memory m

/-- `get_memory`: `SELECT * FROM memories WHERE id = ?`, first row or none. -/
def get_memory (db : SQLiteDatabase) (memory_id : Nat) : Option Memory :=
  db.memories.find? (fun m => m.id = memory_id)

/-- `confirm_memory`: `UPDATE memories SET confirmed = 1, updated_at = ?
WHERE id = ?`; returns `rowcount > 0`. -/
def confirm_memory (db : SQLiteDatabase) (now : Nat) (memory_id : Nat) :
    Bool × SQLiteDatabase :=
  ((db.memories.filter (fun m => m.id = memory_id)).length > 0,
   { db with memories := db.memories.map (fun m =>
       if m.id = memory_id then
         { m with confirmed := true, updated_at := some now } else m) })

/-- `update_memory`: `UPDATE memories SET content = ?, updated_at = ? WHERE
id = ?`; returns `rowcount > 0`. -/
def update_memory (db : SQLiteDatabase) (now : Nat) (memory_id : Nat)
    (content : String) : Bool × SQLiteDatabase :=
  ((db.memories.filter (fun m => m.id = memory_id)).length > 0,
   { db with memories := db.memories.map (fun m =>
       if m.id = memory_id then
         { m with content := content, updated_at := some now } else m) })

/-- `delete_memory`: `DELETE FROM embeddings WHERE memory_id = ?` then
`DELETE FROM memories WHERE id = ?`; returns the second `rowcount > 0`.
Foreign-key enforcement is off on the connection, so the declared
`ON DELETE CASCADE` on `memory_versions` and `memory_links` does not fire
and those tables are untouched. -/
def delete_memory (db : SQLiteDatabase) (memory_id : Nat) :
    Bool × SQLiteDatabase :=
  ((db.memories.filter (fun m => m.id = memory_id)).length > 0,
   { db with
       embeddings := db.embeddings.filter (fun e => e.memory_id ≠ memory_id),
       memories := db.memories.filter (fun m => m.id ≠ memory_id) })

/-- `save_embedding_reference`: `INSERT OR REPLACE INTO embeddings
(memory_id, vector_id) VALUES (?, ?)` (the memory id is the primary key, so
the old row, if any, is replaced). -/
def save_embedding_reference (db : SQLiteDatabase) (memory_id : Nat)
    (vector_id : String) : SQLiteDatabase :=
  { db with embeddings :=
      db.embeddings.filter (fun e => e.memory_id ≠ memory_id)
        ++ [⟨memory_id, vector_id⟩] }

/-- `get_embedding_reference`: `SELECT vector_id FROM embeddings WHERE
memory_id = ?`. -/
def get_embedding_reference (db : SQLiteDatabase) (memory_id : Nat) :
    Option String :=
  (db.embeddings.find? (fun e => e.memory_id = memory_id)).map
    (fun e => e.vector_id)

/-- `list_memories` with the filters of the source: project scoping,
`confirmed_only`, optional type, `include_archived` (default false keeps rows
with `is_archived = 0 OR is_archived IS NULL`), newest-first by `created_at`,
then `LIMIT ?, OFFSET ?`. -/
def list_memories (db : SQLiteDatabase) (project_id : Nat)
    (confirmed_only : Bool := true) (memory_type : Option MemoryType := none)
    (include_archived : Bool := false) (limit : Nat := 100)
    (offset : Nat := 0) : List Memory :=
  let rows := db.memories.filter (fun m =>
    m.project_id = project_id
      ∧ (confirmed_only → m.confirmed = true)
      ∧ (∀ t ∈ memory_type, m.type = t)
      ∧ (include_archived = false → m.is_archived = false))
  (((rows.insertionSort (fun a b => b.created_at ≤ a.created_at)).drop
    offset).take limit)

/-- `mark_stale`: `UPDATE memories SET is_stale = 1, stale_reason = ?,
updated_at = ? WHERE id = ?`. -/
def mark_stale (db : SQLiteDatabase) (now : Nat) (memory_id : Nat)
    (reason : String) : Bool × SQLiteDatabase :=
  ((db.memories.filter (fun m => m.id = memory_id)).length > 0,
   { db with memories := db.memories.map (fun m =>
       if m.id = memory_id then
         { m with is_stale := true, stale_reason := some reason,
                  updated_at := some now } else m) })

/-- `clear_stale`: `UPDATE memories SET is_stale = 0, stale_reason = NULL,
updated_at = ? WHERE id = ?`. -/
def clear_stale (db : SQLiteDatabase) (now : Nat) (memory_id : Nat) :
    Bool × SQLiteDatabase :=
  ((db.memories.filter (fun m => m.id = memory_id)).length > 0,
   { db with memories := db.memories.map (fun m =>
       if m.id = memory_id then
         { m with is_stale := false, stale_reason := none,
                  updated_at := some now } else m) })

/-- `update_last_accessed`: `UPDATE memories SET last_accessed = ? WHERE
id = ?` — `updated_at` is not in the SET list. -/
def update_last_accessed (db : SQLiteDatabase) (now : Nat) (memory_id : Nat) :
    Bool × SQLiteDatabase :=
  ((db.memories.filter (fun m => m.id = memory_id)).length > 0,
   { db with memories := db.memories.map (fun m =>
       if m.id = memory_id then { m with last_accessed := some now } else m) })

/-- `archive_memory`: `UPDATE memories SET is_archived = 1,
consolidated_into = ?, updated_at = ? WHERE id = ?`. -/
def archive_memory (db : SQLiteDatabase) (now : Nat) (memory_id : Nat)
    (consolidated_into : Nat) : Bool × SQLiteDatabase :=
  ((db.memories.filter (fun m => m.id = memory_id)).length > 0,
   { db with memories := db.memories.map (fun m =>
       if m.id = memory_id then
         { m with is_archived := true,
                  consolidated_into := some consolidated_into,
                  updated_at := some now } else m) })

/-- `restore_archived_memory`: `UPDATE memories SET is_archived = 0,
consolidated_into = NULL, updated_at = ? WHERE id = ?`. -/
def restore_archived_memory (db : SQLiteDatabase) (now : Nat)
    (memory_id : Nat) : Bool × SQLiteDatabase :=
  ((db.memories.filter (fun m => m.id = memory_id)).length > 0,
   { db with memories := db.memories.map (fun m =>
       if m.id = memory_id then
         { m with is_archived := false, consolidated_into := none,
                  updated_at := some now } else m) })

/-- `get_archived_memories`: `SELECT * FROM memories WHERE consolidated_into
= ? ORDER BY created_at DESC`. -/
def get_archived_memories (db : SQLiteDatabase) (consolidated_into : Nat) :
    List Memory :=
  (db.memories.filter (fun m =>
    m.consolidated_into = some consolidated_into)).insertionSort
    (fun a b => b.created_at ≤ a.created_at)

/-- `get_next_version_number`: `SELECT MAX(version) FROM memory_versions
WHERE memory_id = ?`, `(max or 0) + 1`. -/
def get_next_version_number (db : SQLiteDatabase) (memory_id : Nat) : Nat :=
  ((db.memory_versions.filter (fun v => v.memory_id = memory_id)).foldl
    (fun acc v => max acc v.version) 0) + 1

/-- `save_memory_version`: builds a `MemoryVersion` with a fresh uuid and
inserts it into `memory_versions`; returns the record. The fresh uuid and the
`created_at` stamp are supplied by the caller's engine state. -/
def save_memory_version (db : SQLiteDatabase) (fresh_id : Nat) (now : Nat)
    (memory_id : Nat) (content : String) (version : Nat) :
    VersionRow × SQLiteDatabase :=
  let record : VersionRow := ⟨fresh_id, memory_id, content, version, now⟩
  (record, { db with memory_versions := db.memory_versions ++ [record] })

end SQLiteDatabase

/-- A point of the per-project Qdrant collection: id, vector and the payload
fields passed by `QdrantStore.upsert` (`storage/qdrant_store.py`). -/
structure QdrantPoint where
  id : Nat
  vector : List ℚ
  memory_type : MemoryType
  created_at : Nat
deriving DecidableEq, Repr

/-- The derived vector index: the points of the project's collection. -/
structure QdrantStore where
  points : List QdrantPoint
deriving DecidableEq, Repr

namespace QdrantStore

/-- `upsert(memory_id, embedding, memory_type, created_at)`: replaces the
point with this id and returns the vector id, which is the memory id's
string form. -/
def upsert (vs : QdrantStore) (memory_id : Nat) (embedding : List ℚ)
    (memory_type : MemoryType) (created_at : Nat) : String × QdrantStore :=
  (toString memory_id,
   { points := vs.points.filter (fun p => p.id ≠ memory_id)
       ++ [⟨memory_id, embedding, memory_type, created_at⟩] })

/-- `delete(memory_id)`: removes the point; returns true (the client's
delete of a missing id succeeds). -/
def delete (vs : QdrantStore) (memory_id : Nat) : Bool × QdrantStore :=
  (true, { points := vs.points.filter (fun p => p.id ≠ memory_id) })

/-- Membership of a memory id in the index. -/
def hasPoint (vs : QdrantStore) (memory_id : Nat) : Bool :=
  vs.points.any (fun p => p.id = memory_id)

end QdrantStore

/-- One hit returned by `QdrantStore.search` (`memory_id` and `score` are the
fields the retrieval engine reads). -/
structure VectorHit where
  memory_id : Nat
  score : ℚ
deriving DecidableEq, Repr

/-- The external backends as an environment: the embedding provider
(`embedding_service.generate`, `none` models a raised backend error), the
vector client's willingness to accept a well-formed upsert (`upsertOk = false`
models a raised backend error on `QdrantStore.upsert`), and the vector
search (`none` models a raised backend error on `QdrantStore.search`). -/
structure Env where
  embed : String → Option (List ℚ)
  upsertOk : Bool
  vsearch : List ℚ → Nat → Option MemoryType → ℚ → Option (List VectorHit)

/-- The engine state: relational store, vector index, a clock supplying
`datetime.utcnow()` ticks, and a counter supplying fresh `uuid4()` values. -/
structure EngineState where
  db : SQLiteDatabase
  vs : QdrantStore
  clock : Nat
  nextId : Nat
deriving DecidableEq, Repr

/-- Python's `str.replace`, over the character list: replace non-overlapping
occurrences of `pat` left to right (fuel is the remaining input length). -/
def replaceAux (pat rep : List Char) : Nat → List Char → List Char
  | 0, l => l
  | _ + 1, [] => []
  | fuel + 1, c :: rest =>
    if pat ≠ [] ∧ pat.isPrefixOf (c :: rest) then
      rep ++ replaceAux pat rep fuel ((c :: rest).drop pat.length)
    else
      c :: replaceAux pat rep fuel rest

/-- Python's `str.replace` on strings. -/
def pyReplace (s pat rep : String) : String :=
  ⟨replaceAux pat.data rep.data s.data.length s.data⟩

/-- Python's `str.strip()`: drop whitespace from both ends. -/
def pyStrip (s : String) : String :=
  ⟨((s.data.dropWhile Char.isWhitespace).reverse.dropWhile
    Char.isWhitespace).reverse⟩

/-- Python's `str.lower()` (ASCII case folding suffices here). -/
def pyLower (s : String) : String :=
  ⟨s.data.map Char.toLower⟩

/-- Helper for Python's `str.split()`: accumulate the current word
(reversed) and break on whitespace runs. -/
def splitWsAux (cur : List Char) : List Char → List String
  | [] => if cur = [] then [] else [⟨cur.reverse⟩]
  | c :: rest =>
    if c.isWhitespace then
      (if cur = [] then [] else [⟨cur.reverse⟩]) ++ splitWsAux [] rest
    else
      splitWsAux (c :: cur) rest

/-- Python's `str.split()` with no arguments: split on whitespace runs,
dropping empty pieces. -/
def pySplit (s : String) : List String :=
  splitWsAux [] s.data

/-- Python's `needle in hay` substring test. -/
def pyContains (hay needle : String) : Bool :=
  (List.range (hay.data.length + 1)).any
    (fun i => needle.data.isPrefixOf (hay.data.drop i))

/-- `ValidationLayer.sanitize_content`: remove NUL bytes, normalize
`\r\n` and `\r` to `\n`, strip surrounding whitespace. -/
def sanitize_content (content : String) : String :=
  pyStrip (pyReplace (pyReplace (pyReplace content "\x00" "") "\r\n" "\n")
    "\r" "\n")

/-- `ValidationLayer.validate_memory_create` on the already-typed record:
the length bounds and the not-only-whitespace check (type and source
membership are enforced by the enums themselves). -/
def validate_memory_create (content : String) : Bool :=
  decide (1 ≤ content.length) && decide (content.length ≤ 10240) &&
    decide (pyStrip content ≠ "")

/-- Observable calls made to the embedding provider and the vector index by
one engine operation, in order. -/
inductive Effect where
  | egenerate (text : String)
  | vupsert (memory_id : Nat)
  | vdelete (memory_id : Nat)
  | saveEmbeddingRef (memory_id : Nat)
  | dbConfirm (memory_id : Nat)
deriving DecidableEq, Repr

/-- `MemoryManager.confirm_memory` (`core/memory_manager.py`): look up the
memory; absent → false; already confirmed → true with no further work;
otherwise, inside a try block, E.generate, V.upsert, R.save_embedding_reference
and finally R.confirm_memory — any raised backend error is caught and the
call returns false with nothing written. Also returns the trace of calls
attempted. -/
def mgr_confirm (env : Env) (s : EngineState) (memory_id : Nat) :
    Bool × EngineState × List Effect :=
  match s.db.get_memory memory_id with
  | none => (false, s, [])
  | some m =>
    if m.confirmed then (true, s, [])
    else
      match env.embed m.content with
      | none => (false, s, [.egenerate m.content])
      | some embedding =>
        if env.upsertOk then
          let (vector_id, vs1) := s.vs.upsert m.id embedding m.type
            m.created_at
          let db1 := s.db.save_embedding_reference m.id vector_id
          let (_, db2) := db1.confirm_memory s.clock memory_id
          (true, { s with db := db2, vs := vs1, clock := s.clock + 1 },
           [.egenerate m.content, .vupsert m.id, .saveEmbeddingRef m.id,
            .dbConfirm memory_id])
        else (false, s, [.egenerate m.content, .vupsert m.id])

/-- `MemoryManager.create_memory`: sanitize, validate, insert with
`confirmed=False`; when `auto_confirm`, call `confirm_memory` and set the
returned object's flag. A validation failure raises, leaving the state
unchanged. -/
def mgr_create (env : Env) (project_id : Nat) (s : EngineState)
    (content : String) (memory_type : MemoryType) (source : MemorySource)
    (auto_confirm : Bool) : Except String (Memory × EngineState) :=
  let content := sanitize_content content
  if validate_memory_create content then
    let m : Memory :=
      { id := s.nextId, project_id := project_id, content := content,
        type := memory_type, source := source, created_at := s.clock,
        updated_at := none, confirmed := false, is_stale := false,
        stale_reason := none, last_accessed := none, is_archived := false,
        consolidated_into := none, confidence_score := 1 }
    let s1 : EngineState :=
      { s with db := s.db.create_memory m, clock := s.clock + 1,
               nextId := s.nextId + 1 }
    if auto_confirm then
      let s2 := (mgr_confirm env s1 m.id).2.1
      .ok ({ m with confirmed := true }, s2)
    else
      .ok (m, s1)
  else
    .error "ValidationError"

/-- `MemoryManager.delete_memory`: absent → false; if confirmed, V.delete
first; then R.delete_memory. -/
def mgr_delete (s : EngineState) (memory_id : Nat) : Bool × EngineState :=
  match s.db.get_memory memory_id with
  | none => (false, s)
  | some m =>
    let vs1 := if m.confirmed then (s.vs.delete memory_id).2 else s.vs
    let (result, db1) := s.db.delete_memory memory_id
    (result, { s with db := db1, vs := vs1 })

/-- Step 1 of `MemoryConsolidator.consolidate`: fetch every source and check
it exists, is not archived, and belongs to the current project (in that
order, as in the source), raising `ValueError` otherwise. -/
def fetch_sources (db : SQLiteDatabase) (project_id : Nat) :
    List Nat → Except String (List Memory)
  | [] => .ok []
  | i :: rest =>
    match db.get_memory i with
    | none => .error "Memory not found"
    | some m =>
      if m.is_archived then .error "Memory already archived"
      else if m.project_id ≠ project_id then
        .error "Memory belongs to different project"
      else
        (fetch_sources db project_id rest).map (fun ms => m :: ms)

/-- Step 2 of `consolidate`: snapshot each source's content into
`memory_versions` at `get_next_version_number`, drawing a fresh uuid and a
timestamp per record; returns the version ids. -/
def snapshot_versions : EngineState → List Memory → List Nat × EngineState
  | s, [] => ([], s)
  | s, m :: rest =>
    let version_num := s.db.get_next_version_number m.id
    let (record, db1) :=
      s.db.save_memory_version s.nextId s.clock m.id m.content version_num
    let s1 : EngineState :=
      { s with db := db1, clock := s.clock + 1, nextId := s.nextId + 1 }
    let (ids, s2) := snapshot_versions s1 rest
    (record.id :: ids, s2)

/-- Steps 4 and 5 of `consolidate`: for each source, `R.archive_memory(id,
new_id)` then `V.delete(id)` (the delete is wrapped in try/except in the
source, but a well-formed delete does not raise). -/
def archive_sources (target : Nat) : EngineState → List Memory → EngineState
  | s, [] => s
  | s, m :: rest =>
    let (_, db1) := s.db.archive_memory s.clock m.id target
    let (_, vs1) := s.vs.delete m.id
    archive_sources target
      { s with db := db1, vs := vs1, clock := s.clock + 1 } rest

/-- Result of `MemoryConsolidator.consolidate`
(`ConsolidationResult` in the source). -/
structure ConsolidationResult where
  consolidated_memory : Memory
  archived_memories : List Memory
  version_ids : List Nat
deriving DecidableEq, Repr

/-- `MemoryConsolidator.consolidate(source_ids, merged_content, memory_type)`
(`core/memory_consolidator.py`): validate (≥ 2 sources, each exists, not
archived, same project), snapshot versions, create the new memory with
`confirmed=True` and `source=manual`, attempt to index it, then archive each
source and delete its vector. The indexing attempt calls
`self.qdrant.upsert(new_memory.id, embedding)`, but `QdrantStore.upsert`
requires `memory_type` and `created_at` as well, so the call raises
`TypeError`, which the surrounding try/except swallows with a warning: the
new memory is never written to the vector index, and the embedding
generation's own failure is swallowed the same way. -/
def consolidate (env : Env) (project_id : Nat) (s : EngineState)
    (source_ids : List Nat) (merged_content : String)
    (memory_type : Option MemoryType) :
    Except String (ConsolidationResult × EngineState) :=
  if source_ids.length < 2 then
    .error "Need at least 2 memories to consolidate"
  else
    match fetch_sources s.db project_id source_ids with
    | .error e => .error e
    | .ok source_memories =>
      let mt := memory_type.getD
        ((source_memories.head?.map (fun m => m.type)).getD .note)
      let (version_ids, s1) := snapshot_versions s source_memories
      let new_memory : Memory :=
        { id := s1.nextId, project_id := project_id,
          content := merged_content, type := mt, source := .manual,
          created_at := s1.clock, updated_at := none, confirmed := true,
          is_stale := false, stale_reason := none, last_accessed := none,
          is_archived := false, consolidated_into := none,
          confidence_score := 1 }
      let s2 : EngineState :=
        { s1 with db := s1.db.save_memory new_memory,
                  clock := s1.clock + 1, nextId := s1.nextId + 1 }
      let _ := env.embed merged_content
      let s3 := archive_sources new_memory.id s2 source_memories
      let archived_memories :=
        source_memories.filterMap (fun m => s3.db.get_memory m.id)
      .ok (⟨new_memory, archived_memories, version_ids⟩, s3)

/-- Step 2 of `rollback_consolidation`: for each archived source,
`R.restore_archived_memory(id)` then an attempted re-index. Like the
consolidation path, the re-index calls `self.qdrant.upsert(memory.id,
embedding)` with two of the four required arguments, raising `TypeError`
inside the try/except, so the vector index is never written; only the
embedding generation is attempted. Each iteration refetches the restored
row and collects it. -/
def restore_sources (env : Env) :
    EngineState → List Memory → List Memory × EngineState
  | s, [] => ([], s)
  | s, m :: rest =>
    let db1 := (s.db.restore_archived_memory s.clock m.id).2
    let s1 : EngineState := { s with db := db1, clock := s.clock + 1 }
    let _ := env.embed m.content
    let restoredHere := (s1.db.get_memory m.id).toList
    (restoredHere ++ (restore_sources env s1 rest).1,
     (restore_sources env s1 rest).2)

/-- `MemoryConsolidator.rollback_consolidation(consolidated_memory_id)`:
fetch the consolidated memory (absent → `ValueError`), fetch its archived
sources via `get_archived_memories` (empty → `ValueError`), restore each
source (with the failing re-index attempt, see `restore_sources`), then
delete the consolidated memory from the relational store and from the
vector index. -/
def rollback_consolidation (env : Env) (s : EngineState)
    (consolidated_memory_id : Nat) :
    Except String (List Memory × EngineState) :=
  match s.db.get_memory consolidated_memory_id with
  | none => .error "Memory not found"
  | some _ =>
    let sources := s.db.get_archived_memories consolidated_memory_id
    if sources.isEmpty then .error "No archived sources found"
    else
      let restored := (restore_sources env s sources).1
      let s1 := (restore_sources env s sources).2
      let db1 := (s1.db.delete_memory consolidated_memory_id).2
      let vs1 := (s1.vs.delete consolidated_memory_id).2
      .ok (restored, { s1 with db := db1, vs := vs1 })

/-- Modelled from the spec: `R.create_memory_relation` — the Relation API of
the relational store (§4.1 "Relation API: `create_memory_relation`, …") is
called by `core/graph_builder.py` and exercised by the repository's tests,
but the method itself is absent from the shipped `storage/sqlite_db.py`.
Following the spec's data model (§3 Memory Relation), it inserts a new
directed relation row with a fresh id and returns it; the spec's Relation
API lists no validation of its own. -/
def SQLiteDatabase.create_memory_relation (db : SQLiteDatabase)
    (fresh_id : Nat) (now : Nat) (source_memory_id : Nat)
    (target_memory_id : Nat) (relation_type : RelationType)
    (created_by : String) : RelationRow × SQLiteDatabase :=
  let row : RelationRow :=
    ⟨fresh_id, source_memory_id, target_memory_id, relation_type, now,
     created_by⟩
  (row, { db with memory_relations := db.memory_relations ++ [row] })

/-- `GraphBuilder.link_memories(source_id, target_id, relation_type,
created_by)` (`core/graph_builder.py`): fetch both memories, raise
`ValueError` if either is absent, then call `R.create_memory_relation`.
There is no self-link check in the source. -/
def link_memories (s : EngineState) (source_id : Nat) (target_id : Nat)
    (relation_type : RelationType) (created_by : String) :
    Except String (RelationRow × EngineState) :=
  match s.db.get_memory source_id with
  | none => .error "Source memory not found"
  | some _ =>
    match s.db.get_memory target_id with
    | none => .error "Target memory not found"
    | some _ =>
      let (row, db1) := s.db.create_memory_relation s.nextId s.clock
        source_id target_id relation_type created_by
      .ok (row, { s with db := db1, clock := s.clock + 1,
                         nextId := s.nextId + 1 })

/-- Modelled from the spec: the serialized memory record
(`memory.model_dump_json()`; pydantic's JSON encoder is outside the
repository). The spec (§4.11) only requires it to be "the full serialized
memory record", so it is modelled as a field-by-field rendering. -/
def serializeMemory (m : Memory) : String :=
  toString m.id ++ "|" ++ toString m.project_id ++ "|" ++ m.content ++ "|" ++
    toString m.created_at ++ "|" ++ toString m.confirmed ++ "|" ++
    toString m.is_stale ++ "|" ++ toString m.is_archived

/-- Modelled from the spec: the truncated SHA-256 digest
(`hashlib.sha256(data).hexdigest()[:32]`; the hash itself is outside the
repository). Modelled as an executable deterministic digest of the string. -/
def digestString (s : String) : Nat :=
  s.data.foldl (fun acc c => (acc * 31 + c.toNat) % (2 ^ 32)) 7

/-- Modelled from the spec: a Fernet token (`cryptography.fernet`, outside
the repository) — authenticated symmetric ciphertext of the serialized
memory record. The spec (§4.11) requires confidentiality and integrity
(AEAD-equivalent), so the token carries the record together with an
authentication tag over the key and the record; any mismatch makes
decryption fail. -/
structure EncToken where
  mac : String
  payload : Memory
deriving DecidableEq, Repr

/-- Modelled from the spec: the authentication tag of a Fernet token. -/
def fernetMac (key : String) (m : Memory) : String :=
  key ++ "#" ++ toString (digestString (serializeMemory m))

/-- Modelled from the spec: Fernet encryption of a serialized record. -/
def fernetEncrypt (key : String) (m : Memory) : EncToken :=
  ⟨fernetMac key m, m⟩

/-- Modelled from the spec: Fernet decryption; verification failure (any
corrupted token) returns none, which `EncryptionLayer.decrypt` surfaces as a
raised `EncryptionError`. -/
def fernetDecrypt (key : String) (t : EncToken) : Option Memory :=
  if t.mac = fernetMac key t.payload then some t.payload else none

/-- The timestamp that sync conflict detection compares for the local side:
`existing.updated_at or existing.created_at` (`sync/manager.py` line 170 and
`_merge_memory`, `_check_conflict`). -/
def local_updated_at (m : Memory) : Nat :=
  m.updated_at.getD m.created_at

/-- One byte of the `encrypted_data` blob flipped: the Fernet token is
`mac ‖ body`, so corrupting its first byte alters the authentication tag. -/
def corruptToken (t : EncToken) : EncToken :=
  { t with mac := "X" ++ t.mac }

/-- A sync envelope (`_create_payload`'s wrapper, §6 of the spec): id,
project id, updated_at, optional checksum of the plaintext record, and the
encrypted record. -/
structure Envelope where
  id : Nat
  project_id : Nat
  updated_at : Nat
  checksum : Option Nat
  encrypted_data : EncToken
deriving DecidableEq, Repr

/-- `SyncManager._create_payload(memory)`: serialize, checksum the
plaintext, encrypt, and wrap with metadata (`updated_at` falls back to
`utcnow()` when the memory has none). -/
def create_payload (key : String) (now : Nat) (m : Memory) : Envelope :=
  { id := m.id, project_id := m.project_id,
    updated_at := m.updated_at.getD now,
    checksum := some (digestString (serializeMemory m)),
    encrypted_data := fernetEncrypt key m }

/-- One remote file as written by `export_memories`: the blob store name
`{memory_id}.json` and the envelope. -/
def export_file (key : String) (now : Nat) (m : Memory) : String × Envelope :=
  (toString m.id ++ ".json", create_payload key now m)

/-- The two failure kinds of `_parse_payload`: a raised `EncryptionError`
from `EncryptionLayer.decrypt`, or a raised `SyncIntegrityError` carrying
the envelope's memory id on checksum mismatch. -/
inductive SyncError where
  | encryptionError
  | integrityError (memory_id : Nat)
deriving DecidableEq, Repr

/-- `SyncManager._parse_payload(content)`: decrypt (a failure raises
`EncryptionError`), then, when a checksum is present, compare it against the
digest of the decrypted plaintext and raise `SyncIntegrityError(memory_id)`
on mismatch; finally the record itself. -/
def parse_payload (key : String) (e : Envelope) :
    Except SyncError (Memory × Nat) :=
  match fernetDecrypt key e.encrypted_data with
  | none => .error .encryptionError
  | some m =>
    match e.checksum with
    | some expected =>
      if digestString (serializeMemory m) ≠ expected then
        .error (.integrityError e.id)
      else
        .ok (m, e.updated_at)
    | none => .ok (m, e.updated_at)

/-- An entry of `SyncResult.errors` as appended by `import_memories`: the
string form of a `SyncIntegrityError` (which names the memory id), or the
generic `"Import failed for {filename}"` message produced for every other
exception — including the `EncryptionError` of a failed decryption. -/
inductive SyncErrEntry where
  | integrityErr (memory_id : Nat)
  | importFailed (filename : String)
deriving DecidableEq, Repr

/-- `SyncResult` of `sync/manager.py` (conflicts keep the id of the
conflicting memory). -/
structure SyncResult where
  imported : Nat
  conflicts : List Nat
  errors : List SyncErrEntry
deriving DecidableEq, Repr

/-- `SyncManager._merge_memory(local, remote, remote_updated)`: archive
status (archive local if remote is archived and local is not; `str(None)`
degenerates to a sentinel 0 target when the remote has no
`consolidated_into`), stale status (union), and content (remote wins only
when strictly newer than `local.updated_at or local.created_at` and
different). -/
def merge_memory (s : EngineState) (localM remote : Memory)
    (remote_updated : Nat) : EngineState :=
  let s1 :=
    if remote.is_archived ∧ localM.is_archived = false then
      let db1 := (s.db.archive_memory s.clock localM.id
        (remote.consolidated_into.getD 0)).2
      { s with db := db1, clock := s.clock + 1 }
    else s
  let s2 :=
    if remote.is_stale ∧ localM.is_stale = false then
      let db2 := (s1.db.mark_stale s1.clock localM.id
        (remote.stale_reason.getD "Synced from remote")).2
      { s1 with db := db2, clock := s1.clock + 1 }
    else s1
  let local_updated := localM.updated_at.getD localM.created_at
  if remote_updated > local_updated ∧ remote.content ≠ localM.content then
    let db3 := (s2.db.update_memory s2.clock localM.id remote.content).2
    { s2 with db := db3, clock := s2.clock + 1 }
  else s2

/-- One iteration of the `import_memories` loop over a remote file: empty
content is skipped; a parse failure is recorded (`SyncIntegrityError` by its
own message, anything else as `Import failed for {filename}`); records of
other projects are dropped; a new record is saved as-is; an existing record
goes through the conflict check (unless forced) and the merge. -/
def import_one (key : String) (project_id : Nat) (force : Bool)
    (acc : SyncResult × EngineState) (file : String × Option Envelope) :
    SyncResult × EngineState :=
  let (result, s) := acc
  match file.2 with
  | none => (result, s)
  | some envl =>
    match parse_payload key envl with
    | .error .encryptionError =>
      ({ result with errors := result.errors ++ [.importFailed file.1] }, s)
    | .error (.integrityError mid) =>
      ({ result with errors := result.errors ++ [.integrityErr mid] }, s)
    | .ok (memory, remote_updated) =>
      if memory.project_id ≠ project_id then (result, s)
      else
        match s.db.get_memory memory.id with
        | some existing =>
          let local_updated := existing.updated_at.getD existing.created_at
          if force = false ∧ local_updated > remote_updated then
            ({ result with conflicts := result.conflicts ++ [memory.id] }, s)
          else
            (result, merge_memory s existing memory remote_updated)
        | none =>
          ({ result with imported := result.imported + 1 },
           { s with db := s.db.save_memory memory })

/-- `SyncManager.import_memories(force)` (`sync/manager.py`): fold the input
step over the remote file listing, one envelope at a time. -/
def import_memories (key : String) (project_id : Nat) (s : EngineState)
    (files : List (String × Option Envelope)) (force : Bool) :
    SyncResult × EngineState :=
  files.foldl (import_one key project_id force) (⟨0, [], []⟩, s)

/-- A hydrated candidate in the search pipeline: the dict
`{"memory": …, "score": …}` built from a vector hit. -/
structure Candidate where
  memory : Memory
  score : ℚ
deriving DecidableEq, Repr

/-- A returned search result (`models.SearchResult`). -/
structure SearchResult where
  memory : Memory
  score : ℚ
  explanation : String
deriving DecidableEq, Repr

/-- `RetrievalEngine._get_type_priority`. -/
def get_type_priority : MemoryType → ℚ
  | .stack => 1
  | .decision => 9 / 10
  | .constraint => 4 / 5
  | .convention => 7 / 10
  | .note => 1 / 2

/-- The per-candidate score assignment of `RetrievalEngine._rerank_results`
(default weights `recency_weight = 0.1`, `confidence_weight = 0.1`):
`score = min(1.0, base + max(0, 0.1·(1 − age_days/30)) + priority·0.05 +
(confidence_score − 0.5)·0.1)` where `age_days = (now − created_at).days`. -/
def adjust_score (now : ℤ) (c : Candidate) : Candidate :=
  let age_days : ℤ := now - (c.memory.created_at : ℤ)
  let recency_boost : ℚ := max 0 ((1 / 10) * (1 - (age_days : ℚ) / 30))
  let type_boost : ℚ := get_type_priority c.memory.type * (1 / 20)
  let confidence_boost : ℚ := (c.memory.confidence_score - 1 / 2) * (1 / 10)
  let final := min 1 (c.score + recency_boost + type_boost + confidence_boost)
  { c with score := final }

/-- The sort order of `_rerank_results`: Python's
`sort(key=(score, created_at), reverse=True)` puts `a` before `b` when the
key of `b` is lexicographically at most the key of `a` — higher adjusted
score first, ties broken by newer `created_at`. -/
def rerankLE (a b : Candidate) : Prop :=
  b.score < a.score ∨
    (b.score = a.score ∧ b.memory.created_at ≤ a.memory.created_at)

instance : DecidableRel rerankLE := fun a b => by
  unfold rerankLE; infer_instance

instance : IsTotal Candidate rerankLE where
  total a b := by
    unfold rerankLE
    rcases lt_trichotomy a.score b.score with h | h | h
    · exact .inr (.inl h)
    · rcases le_total a.memory.created_at b.memory.created_at with h2 | h2
      · exact .inr (.inr ⟨h, h2⟩)
      · exact .inl (.inr ⟨h.symm, h2⟩)
    · exact .inl (.inl h)

instance : IsTrans Candidate rerankLE where
  trans a b c hab hbc := by
    unfold rerankLE at *
    rcases hab with h1 | ⟨h1, h1c⟩ <;> rcases hbc with h2 | ⟨h2, h2c⟩
    · exact .inl (h2.trans h1)
    · exact .inl (h2 ▸ h1)
    · exact .inl (h1 ▸ h2)
    · exact .inr ⟨h2.trans h1, h2c.trans h1c⟩

/-- `RetrievalEngine._rerank_results`: assign every candidate its adjusted
score, then sort by adjusted score descending with newer `created_at`
breaking ties. -/
def rerank_results (now : ℤ) (results : List Candidate) : List Candidate :=
  (results.map (adjust_score now)).insertionSort rerankLE

/-- `RetrievalEngine._normalize_query`: strip, collapse internal whitespace
runs to single spaces. -/
def normalize_query (query : String) : String :=
  String.intercalate " " (pySplit query)

/-- `ValidationLayer.validate_search_query`: non-empty after strip, at most
10240 characters. -/
def validate_search_query (query : String) : Bool :=
  decide (pyStrip query ≠ "") && decide (query.length ≤ 10240)

/-- The type label of `_generate_explanation`
(`memory.type.value.replace("_", " ").title()`). -/
def typeLabel : MemoryType → String
  | .stack => "Stack"
  | .decision => "Decision"
  | .constraint => "Constraint"
  | .convention => "Convention"
  | .note => "Note"

/-- `RetrievalEngine._generate_explanation`: the type label and the
similarity qualifier (the numeric score and date formatting of the f-string
are elided). -/
def generate_explanation (m : Memory) (score : ℚ) : String :=
  let relevance :=
    if score ≥ 17 / 20 then "highly relevant"
    else if score ≥ 7 / 10 then "relevant"
    else "partially relevant"
  "[" ++ typeLabel m.type ++ "] " ++ relevance

/-- `RetrievalEngine._fallback_keyword_search`: list up to 100 confirmed
memories of the project, score each by
`min(1.0, matches/len(keywords) · 0.7)` over the lowercased query's
keywords, keep positive scores, sort descending, take `limit`. It performs
no writes — in particular it never calls `update_last_accessed`. -/
def fallback_keyword_search (db : SQLiteDatabase) (project_id : Nat)
    (query : String) (memory_type : Option MemoryType) (limit : Nat) :
    List SearchResult :=
  let memories := db.list_memories project_id true memory_type false 100 0
  let keywords := pySplit (pyLower query)
  let scored := memories.filterMap (fun m =>
    let content_lower := pyLower m.content
    let matchCount :=
      (keywords.filter (fun kw => pyContains content_lower kw)).length
    if matchCount > 0 then
      some (⟨m, min 1 ((matchCount : ℚ) / keywords.length * (7 / 10))⟩ :
        Candidate)
    else none)
  let sorted := scored.insertionSort (fun a b => b.score ≤ a.score)
  (sorted.take limit).map (fun c =>
    ⟨c.memory, c.score, "[Keyword match]"⟩)

/-- Line 78 of `retrieval.py`: `limit = min(limit or self.max_results,
self.max_results)` (Python's `or`, so an explicit 0 falls back to the
default). -/
def resolve_limit (limit : Option Nat) (max_results : Nat) : Nat :=
  min (match limit with
    | some l => if l = 0 then max_results else l
    | none => max_results) max_results

/-- Line 79 of `retrieval.py`: `min_score = min_score or self.min_score`
(Python's `or`, so an explicit 0.0 falls back to the default). -/
def resolve_min_score (min_score_arg : Option ℚ) (min_score : ℚ) : ℚ :=
  match min_score_arg with
  | some v => if v = 0 then min_score else v
  | none => min_score

/-- `RetrievalEngine.search` (`core/retrieval.py`): validate (a validation
failure raises, uncaught), normalize, resolve `K = min(limit or max_results,
max_results)` and `θ = min_score or default` (Python's `or`, so explicit
zeros fall back to the defaults), then inside a try block embed the query,
search the vector index with `K·2`, return `[]` immediately when there are
no hits, hydrate (dropping unconfirmed, archived, and — when requested —
stale memories), re-rank, truncate to `K`, touch `last_accessed` for every
returned memory, and build explanations. Any backend failure in the try
block degrades to the keyword fallback, whose results are returned with the
state untouched. -/
def search (env : Env) (project_id : Nat) (max_results : Nat)
    (min_score : ℚ) (s : EngineState) (query : String)
    (memory_type : Option MemoryType) (limit : Option Nat)
    (min_score_arg : Option ℚ) (exclude_stale : Bool) :
    Except String (List SearchResult × EngineState) :=
  if validate_search_query query = false then .error "ValidationError"
  else
    let q := normalize_query query
    let K := resolve_limit limit max_results
    let θ := resolve_min_score min_score_arg min_score
    match env.embed q with
    | none => .ok (fallback_keyword_search s.db project_id q memory_type K, s)
    | some query_embedding =>
      match env.vsearch query_embedding (K * 2) memory_type θ with
      | none =>
        .ok (fallback_keyword_search s.db project_id q memory_type K, s)
      | some vector_results =>
        if vector_results.isEmpty then .ok ([], s)
        else
          let hydrated := vector_results.filterMap (fun vr =>
            match s.db.get_memory vr.memory_id with
            | none => none
            | some memory =>
              if memory.confirmed ∧ memory.is_archived = false then
                if exclude_stale ∧ memory.is_stale then none
                else some (⟨memory, vr.score⟩ : Candidate)
              else none)
          let reranked := rerank_results (s.clock : ℤ) hydrated
          let finalResults := reranked.take K
          let s1 := finalResults.foldl (fun st c =>
            { st with
                db := (st.db.update_last_accessed st.clock c.memory.id).2,
                clock := st.clock + 1 }) s
          .ok (finalResults.map (fun c =>
            ⟨c.memory, c.score, generate_explanation c.memory c.score⟩), s1)

/-- The schema-level view of the SQLite file that `migrate.py` manipulates:
table names, index names, the columns of `memories`, the rows of
`schema_version`, and the row counts of the critical tables. -/
structure MigDB where
  tables : List String
  indexes : List String
  memories_cols : List String
  schema_versions : List Nat
  memories_rows : Nat
  projects_rows : Nat
deriving DecidableEq, Repr

namespace MigDB

/-- `CREATE TABLE IF NOT EXISTS`. -/
def addTable (d : MigDB) (t : String) : MigDB :=
  if t ∈ d.tables then d else { d with tables := d.tables ++ [t] }

/-- `CREATE INDEX IF NOT EXISTS`. -/
def addIndex (d : MigDB) (i : String) : MigDB :=
  if i ∈ d.indexes then d else { d with indexes := d.indexes ++ [i] }

/-- `ALTER TABLE memories ADD COLUMN` guarded by the `PRAGMA table_info`
check of the source. -/
def addMemoriesCol (d : MigDB) (c : String) : MigDB :=
  if c ∈ d.memories_cols then d
  else { d with memories_cols := d.memories_cols ++ [c] }

/-- `INSERT INTO schema_version (version, applied_at) VALUES (?, ?)`. -/
def recordVersion (d : MigDB) (v : Nat) : MigDB :=
  { d with schema_versions := d.schema_versions ++ [v] }

end MigDB

/-- `Migrator._get_schema_version`: 1 when the `schema_version` table is
absent, otherwise `MAX(version)` with SQL NULL (and, through Python
truthiness, 0) falling back to 1. -/
def mig_get_schema_version (d : MigDB) : Nat :=
  if "schema_version" ∈ d.tables then
    let m := d.schema_versions.foldl max 0
    if m = 0 then 1 else m
  else 1

/-- `Migrator._perform_migration` — the legacy v1→v2 step: create
`schema_version`, add the five v2 columns to `memories` when missing, create
`memory_versions` and `memory_links`, create three indexes, record
version 2. -/
def migrate_v1_to_v2 (d : MigDB) : MigDB :=
  let d := d.addTable "schema_version"
  let d := d.addMemoriesCol "is_stale"
  let d := d.addMemoriesCol "stale_reason"
  let d := d.addMemoriesCol "last_accessed"
  let d := d.addMemoriesCol "is_archived"
  let d := d.addMemoriesCol "consolidated_into"
  let d := d.addTable "memory_versions"
  let d := d.addTable "memory_links"
  let d := d.addIndex "idx_memories_archived"
  let d := d.addIndex "idx_memory_links_sha"
  let d := d.addIndex "idx_memory_versions_mid"
  d.recordVersion 2

/-- `Migrator._migrate_v2_to_v3` (`migrate.py` lines 212–258): creates the
`sync_history` and `memory_tags` tables, adds the three v3 indexes, and
records version 3. It creates neither `memory_relations` nor `conflict_log`
and adds no `confidence_score` column. -/
def migrate_v2_to_v3 (d : MigDB) : MigDB :=
  let d := d.addTable "sync_history"
  let d := d.addTable "memory_tags"
  let d := d.addIndex "idx_memory_tags_memory"
  let d := d.addIndex "idx_memory_tags_tag"
  let d := d.addIndex "idx_sync_history_timestamp"
  d.recordVersion 3

/-- `Migrator._perform_migration_step`: dispatch on `_migrate_v{f}_to_v{t}`
(only `2→3` exists as a method) with the legacy fallback for `1→2`; any
other step raises `MigrationError`. -/
def perform_migration_step (d : MigDB) (f t : Nat) : Except String MigDB :=
  if f = 2 ∧ t = 3 then .ok (migrate_v2_to_v3 d)
  else if f = 1 ∧ t = 2 then .ok (migrate_v1_to_v2 d)
  else .error "No migration path"

/-- The incremental loop of `run_migration` step 6:
`for from_version in range(current, target)`. -/
def run_migration_steps (d : MigDB) : List Nat → Except String MigDB
  | [] => .ok d
  | f :: rest =>
    match perform_migration_step d f (f + 1) with
    | .error e => .error e
    | .ok d1 => run_migration_steps d1 rest

/-- `Migrator.run_migration(verify, target_version)` on an existing database
file: read the current version; no-op when already at or past the target
(default `LATEST_VERSION = 3`); snapshot the critical row counts when
verifying; back the file up; run the incremental steps; verify that
`memories` and `projects` lost no rows (restoring the backup and failing
otherwise); on any step error restore the backup and fail. The backup file
rotation touches only the filesystem and is elided. Returns
`(success, error_message)` alongside the database. -/
def run_migration (d : MigDB) (verify : Bool) (target_version : Option Nat) :
    (Bool × Option String) × MigDB :=
  let target := target_version.getD 3
  let current := mig_get_schema_version d
  if current ≥ target then ((true, none), d)
  else
    let pre_memories := d.memories_rows
    let pre_projects := d.projects_rows
    match run_migration_steps d (List.range' current (target - current)) with
    | .error e => ((false, some e), d)
    | .ok d1 =>
      if verify ∧ (d1.memories_rows < pre_memories ∨
          d1.projects_rows < pre_projects) then
        ((false, some "Data loss detected"), d)
      else ((true, none), d1)

/-- The public operations of claim C1, applied to one engine. Operations
whose Python form raises before mutating leave the state unchanged. -/
inductive Op where
  | create (content : String) (memory_type : MemoryType)
      (source : MemorySource) (auto_confirm : Bool)
  | confirm (memory_id : Nat)
  | consolidateOp (source_ids : List Nat) (merged_content : String)
      (memory_type : Option MemoryType)
  | rollbackOp (consolidated_memory_id : Nat)
  | importOp (files : List (String × Option Envelope)) (force : Bool)

/-- One public operation applied to the engine state (results discarded;
raised errors leave the state as the operation left it, which for every
modelled failure point is the original state). -/
def stepOp (env : Env) (key : String) (project_id : Nat) (s : EngineState) :
    Op → EngineState
  | .create content ty src auto_confirm =>
    match mgr_create env project_id s content ty src auto_confirm with
    | .ok (_, s1) => s1
    | .error _ => s
  | .confirm memory_id => (mgr_confirm env s memory_id).2.1
  | .consolidateOp ids merged ty =>
    match consolidate env project_id s ids merged ty with
    | .ok (_, s1) => s1
    | .error _ => s
  | .rollbackOp cid =>
    match rollback_consolidation env s cid with
    | .ok (_, s1) => s1
    | .error _ => s
  | .importOp files force =>
    (import_memories key project_id s files force).2

/-- A sequence of public operations. -/
def runOps (env : Env) (key : String) (project_id : Nat) (s : EngineState)
    (ops : List Op) : EngineState :=
  ops.foldl (stepOp env key project_id) s

/-- Invariant P1 of the spec as claimed: every confirmed memory of the
relational store has an embedding reference in its `embeddings` table. -/
def InvP1 (db : SQLiteDatabase) : Prop :=
  ∀ m ∈ db.memories, m.confirmed = true →
    ∃ e ∈ db.embeddings, e.memory_id = m.id

instance (db : SQLiteDatabase) : Decidable (InvP1 db) := by
  unfold InvP1; infer_instance

end MemoryForge

deriving instance DecidableEq for Except

namespace MemoryForge

/-- A fresh memory row with the engine's creation-time defaults. -/
def mkMem (id project_id : Nat) (content : String) (ty : MemoryType)
    (created : Nat) (confirmed : Bool) : Memory :=
  { id := id, project_id := project_id, content := content, type := ty,
    source := .manual, created_at := created, updated_at := none,
    confirmed := confirmed, is_stale := false, stale_reason := none,
    last_accessed := none, is_archived := false, consolidated_into := none,
    confidence_score := 1 }

/-- A healthy backend environment: embedding and vector upserts succeed,
vector search is down (unused by the scenarios that use this). -/
def envOK : Env :=
  { embed := fun _ => some [1], upsertOk := true,
    vsearch := fun _ _ _ _ => none }

/-- A degraded backend environment: the embedding provider raises. -/
def envFail : Env :=
  { embed := fun _ => none, upsertOk := true,
    vsearch := fun _ _ _ _ => none }

/-- The empty engine for project 1. -/
def s0 : EngineState :=
  { db := ⟨[], [], [], [], []⟩, vs := ⟨[]⟩, clock := 0, nextId := 1 }

/-- A confirmed remote memory of project 1, as another machine would export
it. -/
def m50 : Memory := mkMem 50 1 "imported" .note 0 true

/-- The C1 scenario: create and auto-confirm two memories, consolidate them,
then pull one confirmed remote memory. -/
def c1ops : List Op :=
  [.create "alpha" .stack .manual true, .create "beta" .stack .manual true,
   .consolidateOp [1, 2] "merged" none,
   .importOp [("50.json", some (create_payload "k" 0 m50))] false]

/-- Operations drawn from create / confirm / rollback only (the operations
for which invariant P1 is actually preserved). -/
def Op.preservesP1 : Op → Bool
  | .create _ _ _ _ => true
  | .confirm _ => true
  | .rollbackOp _ => true
  | .consolidateOp _ _ _ => false
  | .importOp _ _ => false

/-- A short create-and-confirm scenario used to witness the amended C1. -/
def c1okOps : List Op :=
  [.create "alpha" .stack .manual true, .create "beta" .note .chat false,
   .confirm 2, .rollbackOp 1]

/-- The memory pushed in the C4 scenario. -/
def memA : Memory := mkMem 7 1 "contentA" .note 0 true

/-- The C4 envelope as pushed. -/
def pushedC4 : String × Envelope := export_file "k" 0 memA

/-- The C4 envelope after one byte of its `encrypted_data` field is
corrupted. -/
def corruptedC4 : String × Option Envelope :=
  (pushedC4.1,
   some { pushedC4.2 with
            encrypted_data := corruptToken pushedC4.2.encrypted_data })

/-- A C4 envelope whose ciphertext is intact but whose `checksum` field was
corrupted, for the checksum-mismatch path. -/
def mismatchC4 : String × Option Envelope :=
  (pushedC4.1, some { pushedC4.2 with checksum := some 1 })

/-- An unconfirmed memory awaiting confirmation. -/
def m6 : Memory := mkMem 3 1 "todo" .decision 0 false

/-- A store holding only the unconfirmed memory `m6`. -/
def s6st : EngineState :=
  { db := ⟨[m6], [], [], [], []⟩, vs := ⟨[]⟩, clock := 4, nextId := 9 }

/-- A store with one confirmed indexed memory, for the degraded-search
scenario. -/
def s7st : EngineState :=
  { db := ⟨[mkMem 1 1 "hello world" .note 0 true], [⟨1, "1"⟩], [], [], []⟩,
    vs := ⟨[]⟩, clock := 5, nextId := 2 }

/-- A store with two memories, each owning one version row and one link row. -/
def dbC5 : SQLiteDatabase :=
  ⟨[mkMem 1 1 "a" .note 0 true, mkMem 2 1 "b" .note 1 true],
   [⟨1, "1"⟩, ⟨2, "2"⟩],
   [⟨10, 1, "a", 1, 0⟩, ⟨11, 2, "b", 1, 0⟩],
   [⟨20, 1, "sha1", .created_from, 0⟩, ⟨21, 2, "sha2", .created_from, 0⟩],
   []⟩

/-- A v1 database file: the three v1 tables, no `schema_version`, five
memories, one project. -/
def v1db : MigDB :=
  { tables := ["projects", "memories", "embeddings"], indexes := [],
    memories_cols := ["id", "project_id", "content", "type", "source",
      "created_at", "updated_at", "confirmed", "metadata"],
    schema_versions := [], memories_rows := 5, projects_rows := 1 }

/-- A store with a single memory, for the self-link scenario. -/
def s8st : EngineState :=
  { db := ⟨[mkMem 1 1 "x" .note 0 true], [], [], [], []⟩, vs := ⟨[]⟩,
    clock := 0, nextId := 2 }

/-- The relational store after the self-link of the C8 scenario. -/
def s8db : SQLiteDatabase :=
  { s8st.db with memory_relations := [⟨2, 1, 1, .relates_to, 0, "human"⟩] }

/-- Two confirmed, indexed, non-archived memories of project 1. -/
def dbC2 : SQLiteDatabase :=
  ⟨[mkMem 1 1 "a" .stack 0 true, mkMem 2 1 "b" .stack 1 true],
   [⟨1, "1"⟩, ⟨2, "2"⟩], [], [], []⟩

/-- The engine for the consolidate-then-rollback scenario: both sources are
present in the vector index. -/
def sC2 : EngineState :=
  { db := dbC2, vs := ⟨[⟨1, [1], .stack, 0⟩, ⟨2, [1], .stack, 1⟩]⟩,
    clock := 10, nextId := 3 }

/-- Consolidate the two memories of `sC2` and roll the consolidation back. -/
def rollC2 : Except String (List Memory × EngineState) :=
  match consolidate envOK 1 sC2 [1, 2] "m" none with
  | .ok (res, s1) => rollback_consolidation envOK s1 res.consolidated_memory.id
  | .error e => .error e

set_option maxRecDepth 10000

/-- C1, counterexample: invariant P1 holds of the empty store, yet after the
public-operation sequence create+confirm ×2, consolidate, import — all
succeeding — it fails: the memory created by `consolidate` (id 5, confirmed)
has no row in `embeddings`, and neither does the confirmed memory saved by
the sync import (id 50). -/
theorem C1_counterexample :
    InvP1 s0.db ∧ ¬ InvP1 (runOps envOK "k" 1 s0 c1ops).db ∧
    ((runOps envOK "k" 1 s0 c1ops).db.get_memory 5).map
      (fun m => (m.confirmed, m.content)) = some (true, "merged") ∧
    (runOps envOK "k" 1 s0 c1ops).db.get_embedding_reference 5 = none ∧
    ((runOps envOK "k" 1 s0 c1ops).db.get_memory 50).map
      (fun m => m.confirmed) = some true ∧
    (runOps envOK "k" 1 s0 c1ops).db.get_embedding_reference 50 = none := by
  decide

/-- C2: evaluating consolidate-then-rollback at two confirmed, indexed,
non-archived memories. The relational side behaves as claimed — both
sources come back with `is_archived = false`, `consolidated_into = NULL`
and their original content, and the target (id 5) is gone from the
relational store and from the vector index — but the sources' vector
presence is NOT restored: the rollback's re-index call invokes
`QdrantStore.upsert` with two of its four required arguments, and the
resulting `TypeError` is swallowed by the surrounding try/except. -/
theorem C2_rollback_behavior :
    sC2.vs.hasPoint 1 = true ∧ sC2.vs.hasPoint 2 = true ∧
    ∃ restored s2, rollC2 = .ok (restored, s2) ∧
      (s2.db.get_memory 1).map
        (fun m => (m.content, m.is_archived, m.consolidated_into)) =
        some ("a", false, none) ∧
      (s2.db.get_memory 2).map
        (fun m => (m.content, m.is_archived, m.consolidated_into)) =
        some ("b", false, none) ∧
      s2.db.get_memory 5 = none ∧ s2.vs.hasPoint 5 = false ∧
      s2.vs.hasPoint 1 = false ∧ s2.vs.hasPoint 2 = false := by
  refine ⟨by decide, by decide, _, _, rfl, ?_, ?_, ?_, ?_, ?_, ?_⟩ <;> decide

/-- C3: evaluating `run_migration(verify=True)` at a v1 database with five
memories. The migration succeeds and records schema version 3, but the
`2→3` step created the `sync_history` and `memory_tags` tables — not
`memory_relations` or `conflict_log` — and added no `confidence_score`
column to `memories`. -/
theorem C3_migration_v2_to_v3_behavior :
    (run_migration v1db true none).1 = (true, none) ∧
    mig_get_schema_version (run_migration v1db true none).2 = 3 ∧
    "sync_history" ∈ (run_migration v1db true none).2.tables ∧
    "memory_tags" ∈ (run_migration v1db true none).2.tables ∧
    "memory_relations" ∉ (run_migration v1db true none).2.tables ∧
    "conflict_log" ∉ (run_migration v1db true none).2.tables ∧
    "confidence_score" ∉ (run_migration v1db true none).2.memories_cols ∧
    (run_migration v1db true none).2.memories_rows = 5 := by decide

/-- C4, counterexample: after corrupting one byte of the `encrypted_data`
field of a pushed envelope, a pull on an empty second store yields zero
imported memories and exactly one error entry — but it is the generic
`Import failed for 7.json` entry produced for the raised `EncryptionError`,
not an IntegrityError entry referencing the memory id. -/
theorem C4_counterexample :
    (import_memories "k" 1 s0 [corruptedC4] false).1 =
      ⟨0, [], [.importFailed "7.json"]⟩ ∧
    (import_memories "k" 1 s0 [corruptedC4] false).2 = s0 := by decide

/-- C5: evaluating `delete_memory` at a memory owning one version row and
one link row. The memory row and its embedding reference are removed and
other ids are untouched, but the victim's `memory_versions` and
`memory_links` rows remain: the schema declares `ON DELETE CASCADE`, yet the
connection never enables foreign-key enforcement, so the cascade never
fires. -/
theorem C5_delete_no_cascade :
    (dbC5.delete_memory 1).1 = true ∧
    (dbC5.delete_memory 1).2.memories = [mkMem 2 1 "b" .note 1 true] ∧
    (dbC5.delete_memory 1).2.embeddings = [⟨2, "2"⟩] ∧
    (dbC5.delete_memory 1).2.memory_versions = dbC5.memory_versions ∧
    (dbC5.delete_memory 1).2.memory_links = dbC5.memory_links ∧
    ⟨10, 1, "a", 1, 0⟩ ∈ (dbC5.delete_memory 1).2.memory_versions ∧
    ⟨20, 1, "sha1", .created_from, 0⟩ ∈ (dbC5.delete_memory 1).2.memory_links
    := by decide

/-- C7, counterexample: with the embedding provider down, search degrades to
the keyword fallback and returns memory 1, yet the engine state is exactly
the input state: the returned memory's `last_accessed` is still `none` —
the fallback does not update `last_accessed`. -/
theorem C7_counterexample :
    ((search envFail 1 5 (1 / 2) s7st "hello" none none none
        false).toOption.map
      (fun p => (p.1.map (fun r => (r.memory.id, r.memory.last_accessed)),
        p.2))) = some ([(1, none)], s7st) := by decide

/-- C8, counterexample: with memory 1 present, `link_memories(1, 1, …)`
succeeds and inserts a self-relation — no self-link rejection happens. -/
theorem C8_counterexample :
    link_memories s8st 1 1 .relates_to "human" =
      .ok (⟨2, 1, 1, .relates_to, 0, "human"⟩,
        { s8st with db := s8db, clock := 1, nextId := 3 }) := by decide

/-- Rows of an `UPDATE … WHERE id = ?`-style map that carry the targeted id
come from a row with that id, transformed by the update (provided the update
preserves ids). -/
theorem mem_map_guard {l : List Memory} {memory_id : Nat} {h : Memory → Memory} :
    ∀ m' ∈ l.map (fun m => if m.id = memory_id then h m else m),
      m'.id = memory_id → (∀ m, (h m).id = m.id) →
      ∃ m ∈ l, m.id = memory_id ∧ m' = h m := by
  intro m' hm' hm'id hid
  rw [List.mem_map] at hm'
  obtain ⟨m, hm, rfl⟩ := hm'
  by_cases hc : m.id = memory_id
  · exact ⟨m, hm, hc, by simp [hc]⟩
  · rw [if_neg hc] at hm'id
    exact absurd hm'id hc

/-- C10: every lifecycle mutation — `confirm_memory`, `mark_stale`,
`clear_stale`, `archive_memory`, `restore_archived_memory` — stamps the
targeted memory's `updated_at` with the current time (so the value that sync
conflict detection compares, `updated_at or created_at`, becomes `now`),
while `update_last_accessed` sets only `last_accessed`, leaving every row's
`updated_at` unchanged. -/
theorem C10_lifecycle_updated_at (db : SQLiteDatabase)
    (now memory_id target : Nat) (reason : String) :
    (∀ m' ∈ (db.confirm_memory now memory_id).2.memories,
       m'.id = memory_id →
       m'.updated_at = some now ∧ local_updated_at m' = now) ∧
    (∀ m' ∈ (db.mark_stale now memory_id reason).2.memories,
       m'.id = memory_id →
       m'.updated_at = some now ∧ local_updated_at m' = now) ∧
    (∀ m' ∈ (db.clear_stale now memory_id).2.memories,
       m'.id = memory_id →
       m'.updated_at = some now ∧ local_updated_at m' = now) ∧
    (∀ m' ∈ (db.archive_memory now memory_id target).2.memories,
       m'.id = memory_id →
       m'.updated_at = some now ∧ local_updated_at m' = now) ∧
    (∀ m' ∈ (db.restore_archived_memory now memory_id).2.memories,
       m'.id = memory_id →
       m'.updated_at = some now ∧ local_updated_at m' = now) ∧
    ((db.update_last_accessed now memory_id).2.memories.map
      (fun m => m.updated_at) = db.memories.map (fun m => m.updated_at)) ∧
    (∀ m' ∈ (db.update_last_accessed now memory_id).2.memories,
       m'.id = memory_id → m'.last_accessed = some now) := by
  refine ⟨?_, ?_, ?_, ?_, ?_, ?_, ?_⟩
  · intro m' hm' hid
    simp only [SQLiteDatabase.confirm_memory] at hm'
    obtain ⟨m, _, _, rfl⟩ := mem_map_guard m' hm' hid (fun m => rfl)
    simp [local_updated_at]
  · intro m' hm' hid
    simp only [SQLiteDatabase.mark_stale] at hm'
    obtain ⟨m, _, _, rfl⟩ := mem_map_guard m' hm' hid (fun m => rfl)
    simp [local_updated_at]
  · intro m' hm' hid
    simp only [SQLiteDatabase.clear_stale] at hm'
    obtain ⟨m, _, _, rfl⟩ := mem_map_guard m' hm' hid (fun m => rfl)
    simp [local_updated_at]
  · intro m' hm' hid
    simp only [SQLiteDatabase.archive_memory] at hm'
    obtain ⟨m, _, _, rfl⟩ := mem_map_guard m' hm' hid (fun m => rfl)
    simp [local_updated_at]
  · intro m' hm' hid
    simp only [SQLiteDatabase.restore_archived_memory] at hm'
    obtain ⟨m, _, _, rfl⟩ := mem_map_guard m' hm' hid (fun m => rfl)
    simp [local_updated_at]
  · simp only [SQLiteDatabase.update_last_accessed, List.map_map]
    refine List.map_congr_left (fun m _ => ?_)
    by_cases hc : m.id = memory_id <;> simp [hc]
  · intro m' hm' hid
    simp only [SQLiteDatabase.update_last_accessed] at hm'
    obtain ⟨m, _, _, rfl⟩ := mem_map_guard m' hm' hid (fun m => rfl)
    simp

/-- C8, amended: `link_memories` requires both memories to exist — a missing
target or source raises and no relation is created — but it performs no
self-link check: with a memory `x` present, `link_memories(x, x, …)`
succeeds and appends a self-relation to `memory_relations`. -/
theorem C8_amended_link_memories (s : EngineState) (x y : Nat) (m : Memory)
    (rt : RelationType) (cb : String)
    (hm : s.db.get_memory x = some m) :
    (link_memories s x x rt cb =
      .ok (⟨s.nextId, x, x, rt, s.clock, cb⟩,
        { s with
            db := { s.db with memory_relations :=
              s.db.memory_relations ++ [⟨s.nextId, x, x, rt, s.clock, cb⟩] },
            clock := s.clock + 1, nextId := s.nextId + 1 })) ∧
    (s.db.get_memory y = none →
      link_memories s x y rt cb = .error "Target memory not found" ∧
      link_memories s y x rt cb = .error "Source memory not found") := by
  refine ⟨?_, fun hy => ⟨?_, ?_⟩⟩ <;>
    simp [link_memories, SQLiteDatabase.create_memory_relation, hm, *]

/-- C8, witness: the amended theorem at the one-memory store — the self-link
on memory 1 succeeds and creates the relation, the link to absent memory 9
fails. -/
theorem C8_witness :
    link_memories s8st 1 1 .relates_to "human" =
      .ok (⟨2, 1, 1, .relates_to, 0, "human"⟩,
        { s8st with db := s8db, clock := 1, nextId := 3 }) ∧
    link_memories s8st 1 9 .relates_to "human" =
      .error "Target memory not found" :=
  ⟨(C8_amended_link_memories s8st 1 9 (mkMem 1 1 "x" .note 0 true)
      .relates_to "human" (by decide)).1,
   ((C8_amended_link_memories s8st 1 9 (mkMem 1 1 "x" .note 0 true)
      .relates_to "human" (by decide)).2 (by decide)).1⟩

/-- C4, amended: during import, a file whose payload fails decryption is
recorded as a generic `Import failed for {filename}` error entry (the raised
`EncryptionError` falls to the catch-all handler), while a file whose
checksum does not match after successful decryption is recorded as an
IntegrityError entry referencing the envelope's memory id; in both cases
nothing is imported and the store is untouched. -/
theorem C4_amended_error_kinds (s : EngineState) (key : String)
    (project_id : Nat) (f : String) (e : Envelope) (force : Bool) :
    (fernetDecrypt key e.encrypted_data = none →
      import_memories key project_id s [(f, some e)] force =
        (⟨0, [], [.importFailed f]⟩, s)) ∧
    (∀ m, fernetDecrypt key e.encrypted_data = some m →
      ∀ c, e.checksum = some c → digestString (serializeMemory m) ≠ c →
      import_memories key project_id s [(f, some e)] force =
        (⟨0, [], [.integrityErr e.id]⟩, s)) := by
  constructor
  · intro hdec
    simp [import_memories, import_one, parse_payload, hdec]
  · intro m hdec c hck hne
    simp [import_memories, import_one, parse_payload, hdec, hck, hne]

/-- C4, witness: the amended theorem at the pushed envelope of memory 7 —
the ciphertext-corrupted copy yields one generic error naming `7.json` and
zero imports, while the checksum-corrupted copy yields one IntegrityError
entry naming memory 7 and zero imports. -/
theorem C4_witness :
    import_memories "k" 1 s0 [corruptedC4] false =
      (⟨0, [], [.importFailed "7.json"]⟩, s0) ∧
    import_memories "k" 1 s0 [mismatchC4] false =
      (⟨0, [], [.integrityErr 7]⟩, s0) :=
  ⟨(C4_amended_error_kinds s0 "k" 1 "7.json"
      { pushedC4.2 with encrypted_data := corruptToken pushedC4.2.encrypted_data }
      false).1 (by decide),
   (C4_amended_error_kinds s0 "k" 1 "7.json"
      { pushedC4.2 with checksum := some 1 } false).2 memA (by decide) 1
      (by decide) (by decide)⟩

/-- C7, amended: when search degrades to the keyword fallback — because the
embedding provider or the vector search raises — the fallback's results are
returned with the engine state exactly as it was: `last_accessed` is not
updated for any returned memory (only the semantic path touches it). -/
theorem C7_amended_fallback_no_touch (env : Env)
    (project_id max_results : Nat) (min_score : ℚ) (s : EngineState)
    (query : String) (memory_type : Option MemoryType) (limit : Option Nat)
    (min_score_arg : Option ℚ) (exclude_stale : Bool)
    (hval : validate_search_query query = true) :
    (env.embed (normalize_query query) = none →
      search env project_id max_results min_score s query memory_type limit
        min_score_arg exclude_stale =
      .ok (fallback_keyword_search s.db project_id (normalize_query query)
        memory_type (resolve_limit limit max_results), s)) ∧
    (∀ qe, env.embed (normalize_query query) = some qe →
      env.vsearch qe (resolve_limit limit max_results * 2) memory_type
        (resolve_min_score min_score_arg min_score) = none →
      search env project_id max_results min_score s query memory_type limit
        min_score_arg exclude_stale =
      .ok (fallback_keyword_search s.db project_id (normalize_query query)
        memory_type (resolve_limit limit max_results), s)) := by
  constructor
  · intro hembed
    simp [search, hval, hembed]
  · intro qe hembed hvs
    simp [search, hval, hembed, hvs]

/-- C7, witness: the amended theorem at the one-memory store with the
embedding provider down — the degraded search returns the fallback's results
and leaves the store untouched. -/
theorem C7_witness :
    search envFail 1 5 (1 / 2) s7st "hello" none none none false =
      .ok (fallback_keyword_search s7st.db 1 (normalize_query "hello") none
        (resolve_limit none 5), s7st) :=
  (C7_amended_fallback_no_touch envFail 1 5 (1 / 2) s7st "hello" none none
    none false (by decide)).1 (by decide)

/-- Looking up an id through an `UPDATE … WHERE id = ?`-style map finds the
updated form of whatever the lookup found before, provided the update
preserves ids. -/
theorem find?_map_guard (l : List Memory) (memory_id : Nat)
    (h : Memory → Memory) (hid : ∀ m, (h m).id = m.id) :
    (l.map (fun m => if m.id = memory_id then h m else m)).find?
        (fun m => m.id = memory_id) =
      (l.find? (fun m => m.id = memory_id)).map
        (fun m => if m.id = memory_id then h m else m) := by
  rw [List.find?_map]
  have hfun : ((fun m => decide (m.id = memory_id)) ∘
      fun m => if m.id = memory_id then h m else m) =
      (fun m : Memory => decide (m.id = memory_id)) := by
    funext m
    by_cases hc : m.id = memory_id <;> simp [Function.comp, hc, hid]
  rw [hfun]

/-- `get_memory` after the `confirm_memory` UPDATE returns the found row
with `confirmed` set and `updated_at` stamped. -/
theorem get_memory_confirm (db : SQLiteDatabase) (now memory_id : Nat)
    (m : Memory) (hm : db.get_memory memory_id = some m) :
    (db.confirm_memory now memory_id).2.get_memory memory_id =
      some { m with confirmed := true, updated_at := some now } := by
  have hpred : m.id = memory_id := by
    have := List.find?_some hm
    simpa using this
  unfold SQLiteDatabase.get_memory SQLiteDatabase.confirm_memory
  dsimp only
  rw [find?_map_guard db.memories memory_id
    (fun m => { m with confirmed := true, updated_at := some now })
    (fun m => rfl)]
  unfold SQLiteDatabase.get_memory at hm
  rw [hm]
  simp [hpred]

/-- C6: `confirm_memory` is idempotent — on an already-confirmed memory it
returns true with no state change and no embedding or vector call; otherwise
it performs embedding generation, then the vector upsert, then
`save_embedding_reference`, then `R.confirm_memory`, in that order (the
effect trace), and the confirmed flag is set at the end; a failure of the
embedding provider or of the vector upsert — the steps before the final
`R.confirm_memory` — returns false with the state unchanged, so the memory
keeps `confirmed = false`; and running the operation twice leaves the same
state as running it once. -/
theorem C6_confirm_memory_contract (env : Env) (s : EngineState)
    (memory_id : Nat) :
    (∀ m, s.db.get_memory memory_id = some m → m.confirmed = true →
      mgr_confirm env s memory_id = (true, s, [])) ∧
    (∀ m embedding, s.db.get_memory memory_id = some m →
      m.confirmed = false → env.embed m.content = some embedding →
      env.upsertOk = true →
      mgr_confirm env s memory_id =
        (true,
         { s with
             db := ((s.db.save_embedding_reference m.id
               (toString m.id)).confirm_memory s.clock memory_id).2,
             vs := (s.vs.upsert m.id embedding m.type m.created_at).2,
             clock := s.clock + 1 },
         [.egenerate m.content, .vupsert m.id, .saveEmbeddingRef m.id,
          .dbConfirm memory_id]) ∧
      ((mgr_confirm env s memory_id).2.1.db.get_memory memory_id).map
        (fun m' => m'.confirmed) = some true) ∧
    (∀ m, s.db.get_memory memory_id = some m → m.confirmed = false →
      (env.embed m.content = none ∨ env.upsertOk = false) →
      (mgr_confirm env s memory_id).1 = false ∧
      (mgr_confirm env s memory_id).2.1 = s) ∧
    ((mgr_confirm env (mgr_confirm env s memory_id).2.1 memory_id).2.1 =
      (mgr_confirm env s memory_id).2.1) := by
  refine ⟨?_, ?_, ?_, ?_⟩
  · intro m hm hc
    simp [mgr_confirm, hm, hc]
  · intro m embedding hm hc hembed hup
    have hstate : mgr_confirm env s memory_id =
        (true,
         { s with
             db := ((s.db.save_embedding_reference m.id
               (toString m.id)).confirm_memory s.clock memory_id).2,
             vs := (s.vs.upsert m.id embedding m.type m.created_at).2,
             clock := s.clock + 1 },
         [.egenerate m.content, .vupsert m.id, .saveEmbeddingRef m.id,
          .dbConfirm memory_id]) := by
      simp [mgr_confirm, hm, hc, hembed, hup, QdrantStore.upsert]
    refine ⟨hstate, ?_⟩
    rw [hstate]
    have hm' : (s.db.save_embedding_reference m.id
        (toString m.id)).get_memory memory_id = some m := hm
    rw [get_memory_confirm _ _ _ _ hm']
    rfl
  · intro m hm hc hfail
    rcases hfail with h | h
    · simp [mgr_confirm, hm, hc, h]
    · cases he : env.embed m.content with
      | none => simp [mgr_confirm, hm, hc, he]
      | some v => simp [mgr_confirm, hm, hc, he, h]
  · cases hq : s.db.get_memory memory_id with
    | none => simp [mgr_confirm, hq]
    | some m =>
      by_cases hc : m.confirmed
      · simp [mgr_confirm, hq, hc]
      · cases he : env.embed m.content with
        | none => simp [mgr_confirm, hq, hc, he]
        | some v =>
          by_cases hu : env.upsertOk
          · have hm' : (s.db.save_embedding_reference m.id
                (toString m.id)).get_memory memory_id = some m := hq
            have hget := get_memory_confirm
              (s.db.save_embedding_reference m.id (toString m.id))
              s.clock memory_id m hm'
            simp only [mgr_confirm, hq, hc, he, hu, QdrantStore.upsert,
              if_true, if_false, Bool.false_eq_true]
            simp [hget]
          · simp [mgr_confirm, hq, hc, he, hu]

/-- C6, witness: the contract at a store holding the unconfirmed memory
`m6` — confirmation with healthy backends succeeds with the four calls in
order and sets the flag; with the embedding provider down it returns false
and leaves the state unchanged; and on the already-confirmed memory of
`s7st` it returns true immediately with no calls. -/
theorem C6_witness :
    mgr_confirm envOK s6st 3 =
      (true,
       { s6st with
           db := ((s6st.db.save_embedding_reference m6.id
             (toString m6.id)).confirm_memory s6st.clock 3).2,
           vs := (s6st.vs.upsert m6.id [1] m6.type m6.created_at).2,
           clock := s6st.clock + 1 },
       [.egenerate m6.content, .vupsert m6.id, .saveEmbeddingRef m6.id,
        .dbConfirm 3]) ∧
    ((mgr_confirm envOK s6st 3).2.1.db.get_memory 3).map
      (fun m' => m'.confirmed) = some true ∧
    (mgr_confirm envFail s6st 3).1 = false ∧
    (mgr_confirm envFail s6st 3).2.1 = s6st ∧
    mgr_confirm envOK s7st 1 = (true, s7st, []) :=
  ⟨((C6_confirm_memory_contract envOK s6st 3).2.1 m6 [1] (by decide)
      (by decide) (by decide) (by decide)).1,
   ((C6_confirm_memory_contract envOK s6st 3).2.1 m6 [1] (by decide)
      (by decide) (by decide) (by decide)).2,
   ((C6_confirm_memory_contract envFail s6st 3).2.2.1 m6 (by decide)
      (by decide) (Or.inl (by decide))).1,
   ((C6_confirm_memory_contract envFail s6st 3).2.2.1 m6 (by decide)
      (by decide) (Or.inl (by decide))).2,
   (C6_confirm_memory_contract envOK s7st 1).1
     (mkMem 1 1 "hello world" .note 0 true) (by decide) (by decide)⟩

/-- C9: re-ranking rearranges exactly the score-adjusted candidates (a
permutation), each assigned `min(1, base + 0.1·max(0, 1 − age_days/30) +
type_priority·0.05 + (confidence_score − 0.5)·0.1)` with the type priorities
stack 1.0, decision 0.9, constraint 0.8, convention 0.7, note 0.5, without
touching the memory itself; the output is sorted so that each successor has
a lower adjusted score, or an equal score and an older-or-equal
`created_at` (descending score, ties broken by newer `created_at`); and
taking the first `K` — as the search pipeline does — yields a prefix of at
most `K` results. -/
theorem C9_rerank_spec (now : ℤ) (l : List Candidate) (K : Nat) :
    (rerank_results now l).Perm (l.map (adjust_score now)) ∧
    List.Sorted rerankLE (rerank_results now l) ∧
    (∀ a b : Candidate, rerankLE a b ↔ b.score < a.score ∨
      (b.score = a.score ∧ b.memory.created_at ≤ a.memory.created_at)) ∧
    (∀ c : Candidate, (adjust_score now c).memory = c.memory ∧
      (adjust_score now c).score =
        min 1 (c.score
          + (1 / 10) * max 0 (1 - ((now - (c.memory.created_at : ℤ) : ℤ) : ℚ) / 30)
          + get_type_priority c.memory.type * (1 / 20)
          + (c.memory.confidence_score - 1 / 2) * (1 / 10))) ∧
    get_type_priority .stack = 1 ∧ get_type_priority .decision = 9 / 10 ∧
    get_type_priority .constraint = 4 / 5 ∧
    get_type_priority .convention = 7 / 10 ∧
    get_type_priority .note = 1 / 2 ∧
    ((rerank_results now l).take K).length ≤ K ∧
    ((rerank_results now l).take K) <+: rerank_results now l := by
  refine ⟨List.perm_insertionSort rerankLE _,
    List.sorted_insertionSort rerankLE _,
    fun a b => Iff.rfl, fun c => ⟨rfl, ?_⟩, rfl, rfl, rfl, rfl, rfl,
    ?_, List.take_prefix K _⟩
  · show min 1 (c.score + max 0 ((1 / 10) * _) + _ + _) = _
    rw [mul_max_of_nonneg _ _ (by norm_num : (0 : ℚ) ≤ 1 / 10), mul_zero]
  · rw [List.length_take]
    exact min_le_left _ _

/-- Inserting an unconfirmed row preserves invariant P1. -/
theorem invP1_create_row (db : SQLiteDatabase) (m : Memory)
    (hm : m.confirmed = false) (h : InvP1 db) :
    InvP1 (db.create_memory m) := by
  intro m' hm' hc
  unfold SQLiteDatabase.create_memory at hm'
  dsimp only at hm'
  rcases List.mem_append.mp hm' with h1 | h1
  · exact h m' h1 hc
  · rw [List.mem_singleton] at h1
    subst h1
    rw [hm] at hc
    cases hc

/-- An UPDATE that preserves ids and never turns `confirmed` on preserves
invariant P1 (the embeddings table is untouched). -/
theorem invP1_map_frame (db : SQLiteDatabase) (g : Memory → Memory)
    (hid : ∀ m, (g m).id = m.id)
    (hconf : ∀ m, (g m).confirmed = true → m.confirmed = true)
    (h : InvP1 db) : InvP1 { db with memories := db.memories.map g } := by
  intro m' hm' hc
  rw [List.mem_map] at hm'
  obtain ⟨m, hm, rfl⟩ := hm'
  obtain ⟨e, he, heid⟩ := h m hm (hconf m hc)
  exact ⟨e, he, by rw [hid]; exact heid⟩

/-- `delete_memory` preserves invariant P1: it removes a memory together
with its own embedding row and nothing else. -/
theorem invP1_delete (db : SQLiteDatabase) (memory_id : Nat) (h : InvP1 db) :
    InvP1 (db.delete_memory memory_id).2 := by
  intro m' hm' hc
  unfold SQLiteDatabase.delete_memory at hm'
  dsimp only at hm'
  rw [List.mem_filter] at hm'
  obtain ⟨hmem, hne⟩ := hm'
  obtain ⟨e, he, heid⟩ := h m' hmem hc
  refine ⟨e, ?_, heid⟩
  unfold SQLiteDatabase.delete_memory
  dsimp only
  rw [List.mem_filter]
  refine ⟨he, ?_⟩
  simp only [decide_eq_true_eq] at hne ⊢
  rw [heid]
  exact hne

/-- The write pair of a successful confirmation — upsert the embedding
reference, then set the confirmed flag — preserves invariant P1: the
reference is in place before (and after) the flag is set. -/
theorem invP1_save_ref_confirm (db : SQLiteDatabase) (now target : Nat)
    (vid : String) (h : InvP1 db) :
    InvP1 ((db.save_embedding_reference target vid).confirm_memory now
      target).2 := by
  intro m' hm' hc
  unfold SQLiteDatabase.confirm_memory SQLiteDatabase.save_embedding_reference
    at hm' ⊢
  dsimp only at hm' ⊢
  rw [List.mem_map] at hm'
  obtain ⟨m0, hm0, rfl⟩ := hm'
  by_cases hidc : m0.id = target
  · refine ⟨⟨target, vid⟩, ?_, ?_⟩
    · exact List.mem_append_right _ (List.mem_singleton.mpr rfl)
    · simp [hidc]
  · rw [if_neg hidc] at hc ⊢
    obtain ⟨e, he, heid⟩ := h m0 hm0 hc
    refine ⟨e, List.mem_append_left _ ?_, heid⟩
    rw [List.mem_filter]
    refine ⟨he, ?_⟩
    simp only [decide_eq_true_eq]
    rw [heid]
    exact hidc

/-- `MemoryManager.confirm_memory` preserves invariant P1 on every control
path. -/
theorem invP1_mgr_confirm (env : Env) (s : EngineState) (memory_id : Nat)
    (h : InvP1 s.db) : InvP1 (mgr_confirm env s memory_id).2.1.db := by
  cases hq : s.db.get_memory memory_id with
  | none => simpa [mgr_confirm, hq] using h
  | some m =>
    have hmid : m.id = memory_id := by simpa using List.find?_some hq
    by_cases hc : m.confirmed
    · simpa [mgr_confirm, hq, hc] using h
    · cases he : env.embed m.content with
      | none => simpa [mgr_confirm, hq, hc, he] using h
      | some v =>
        by_cases hu : env.upsertOk
        · simp only [mgr_confirm, hq, hc, he, hu, if_true, if_false,
            Bool.false_eq_true, QdrantStore.upsert]
          rw [hmid]
          exact invP1_save_ref_confirm _ _ _ _ h
        · simpa [mgr_confirm, hq, hc, he, hu] using h

/-- The restoration loop of `rollback_consolidation` preserves invariant P1:
`restore_archived_memory` flips archival flags only, never `confirmed`, and
leaves the embeddings table alone. -/
theorem invP1_restore_sources (env : Env) (srcs : List Memory)
    (s : EngineState) (h : InvP1 s.db) :
    InvP1 (restore_sources env s srcs).2.db := by
  induction srcs generalizing s with
  | nil => simpa [restore_sources] using h
  | cons a rest ih =>
    simp only [restore_sources]
    apply ih
    show InvP1 (s.db.restore_archived_memory s.clock a.id).2
    unfold SQLiteDatabase.restore_archived_memory
    dsimp only
    refine invP1_map_frame _ _ ?_ ?_ h
    · intro m
      by_cases hc : m.id = a.id <;> simp [hc]
    · intro m
      by_cases hc : m.id = a.id <;> simp [hc]

/-- Every public operation of the amended C1 — create, confirm, rollback —
preserves invariant P1. -/
theorem invP1_step (env : Env) (key : String) (project_id : Nat)
    (s : EngineState) (op : Op) (hop : op.preservesP1 = true)
    (h : InvP1 s.db) : InvP1 (stepOp env key project_id s op).db := by
  cases op with
  | create content t src ac =>
    by_cases hv : validate_memory_create (sanitize_content content)
    · have hrow : InvP1 (s.db.create_memory
          { id := s.nextId, project_id := project_id,
            content := sanitize_content content, type := t, source := src,
            created_at := s.clock, updated_at := none, confirmed := false,
            is_stale := false, stale_reason := none, last_accessed := none,
            is_archived := false, consolidated_into := none,
            confidence_score := 1 }) := invP1_create_row _ _ rfl h
      by_cases hac : ac
      · simp only [stepOp, mgr_create, hv, hac, if_true]
        exact invP1_mgr_confirm _ _ _ hrow
      · simp only [stepOp, mgr_create, hv, hac, if_true, if_false,
          Bool.false_eq_true]
        exact hrow
    · simpa [stepOp, mgr_create, hv] using h
  | confirm memory_id => exact invP1_mgr_confirm env s memory_id h
  | consolidateOp ids merged ty => simp [Op.preservesP1] at hop
  | importOp files force => simp [Op.preservesP1] at hop
  | rollbackOp cid =>
    cases hq : s.db.get_memory cid with
    | none => simpa [stepOp, rollback_consolidation, hq] using h
    | some m =>
      by_cases hempty : (s.db.get_archived_memories cid).isEmpty
      · simpa [stepOp, rollback_consolidation, hq, hempty] using h
      · simp only [stepOp, rollback_consolidation, hq, hempty, if_false,
          Bool.false_eq_true]
        exact invP1_delete _ _ (invP1_restore_sources _ _ _ h)

/-- C1, amended: invariant P1 — every confirmed memory has an embedding
reference in the relational store's embeddings table — holds after any
sequence of `create_memory`, `confirm_memory`, and `rollback_consolidation`
operations from any state satisfying it. (By `C1_counterexample`, the other
two public operations, `consolidate` and `import_memories`, break it: the
memory created by consolidate and a confirmed memory saved by sync import
have no embedding reference.) -/
theorem C1_amended_invariant (env : Env) (key : String) (project_id : Nat)
    (s : EngineState) (ops : List Op)
    (hops : ∀ op ∈ ops, op.preservesP1 = true)
    (hinv : InvP1 s.db) :
    InvP1 (runOps env key project_id s ops).db := by
  induction ops generalizing s with
  | nil => simpa [runOps] using hinv
  | cons op rest ih =>
    have hstep := invP1_step env key project_id s op
      (hops op (List.mem_cons_self op rest)) hinv
    have htail := ih (stepOp env key project_id s op)
      (fun o ho => hops o (List.mem_cons_of_mem op ho)) hstep
    simpa [runOps] using htail

/-- C1, witness: the amended invariant at the empty store and a concrete
create / confirm / rollback sequence. -/
theorem C1_witness :
    (∀ op ∈ c1okOps, op.preservesP1 = true) ∧ InvP1 s0.db ∧
    InvP1 (runOps envOK "k" 1 s0 c1okOps).db :=
  ⟨by decide, by decide,
   C1_amended_invariant envOK "k" 1 s0 c1okOps (by decide) (by decide)⟩

end MemoryForge
